import Mathlib

/-!
Verification development for the Daily_Dashboard_NTB analytics code.

Timestamps are modelled at day granularity as integers (serial day
numbers); nullable pandas columns become `Option Int`.  Comparisons
against a null (`NaT`/`NaN`) value are false in pandas, which the
`Opt`-suffixed helpers reproduce.  Each definition is a direct
translation of the named Python function or column assignment.
-/

namespace NTB

/-- Serial day number of a Gregorian calendar date (days since the civil
epoch 1970-01-01), used to turn the concrete dates appearing in the
scenarios into the integer timestamps of the model. -/
def daysFromCivil (y m d : Int) : Int :=
  let y2 := if m ≤ 2 then y - 1 else y
  let era := (if 0 ≤ y2 then y2 else y2 - 399) / 400
  let yoe := y2 - era * 400
  let mp := (m + 9) % 12
  let doy := (153 * mp + 2) / 5 + d - 1
  let doe := yoe * 365 + yoe / 4 - yoe / 100 + doy
  era * 146097 + doe - 719468

/-- Strict less-than on nullable timestamps: any comparison with a null
value is false, as in pandas. -/
def ltOpt : Option Int → Option Int → Bool
  | some a, some b => a < b
  | _, _ => false

/-- Greater-or-equal on nullable timestamps, false when either side is
null, as in pandas. -/
def geOpt : Option Int → Option Int → Bool
  | some a, some b => b ≤ a
  | _, _ => false

/-- Less-or-equal comparison of a nullable day count against a constant
threshold; false on null, as in pandas. -/
def leOptN : Option Int → Int → Bool
  | some a, k => a ≤ k
  | none, _ => false

/-- Strictly-greater comparison of a nullable day count against a
constant threshold; false on null, as in pandas. -/
def gtOptN : Option Int → Int → Bool
  | some a, k => k < a
  | none, _ => false

/-- Null-propagating subtraction of nullable timestamps, the model of
`(series_a - series_b).dt.days`. -/
def subOpt : Option Int → Option Int → Option Int
  | some a, some b => some (a - b)
  | _, _ => none

/-- `get_registration_status` from `inet_dashboard_enhanced.py` and
`ytd_comparison_dashboard.py`: null registration date gives
`Not Registered`; a registration date strictly before the open date
gives `Already Registered`; otherwise `Registered`. -/
def getRegistrationStatus (regDate openDate : Option Int) : String :=
  if regDate.isNone then "Not Registered"
  else if ltOpt regDate openDate then "Already Registered"
  else "Registered"

/-- The `days_to_onboard` column of the inet and ytd dashboards:
`(MOBILE_APP_REGISTRATION_DATE - AC_OPEN_DATE).dt.days`, computed for
every row regardless of registration status. -/
def daysToOnboard (regDate openDate : Option Int) : Option Int :=
  subOpt regDate openDate

/-- Claim C1: registration status is assigned by the exact
short-circuiting precedence null-to-NotRegistered, earlier-than-open
to AlreadyRegistered, otherwise Registered with `days_to_onboard` the
day difference; open 2024-01-01 with registration 2024-01-04 yields
Registered with `days_to_onboard = 3`. -/
theorem c1_registration_status_precedence :
    (∀ op : Option Int, getRegistrationStatus none op = "Not Registered") ∧
    (∀ r op : Int, r < op →
      getRegistrationStatus (some r) (some op) = "Already Registered") ∧
    (∀ r op : Int, op ≤ r →
      getRegistrationStatus (some r) (some op) = "Registered" ∧
      daysToOnboard (some r) (some op) = some (r - op)) ∧
    (getRegistrationStatus (some (daysFromCivil 2024 1 4))
        (some (daysFromCivil 2024 1 1)) = "Registered" ∧
      daysToOnboard (some (daysFromCivil 2024 1 4))
        (some (daysFromCivil 2024 1 1)) = some 3) := by
  refine ⟨fun op => rfl, fun r op h => ?_, fun r op h => ⟨?_, ?_⟩, by decide⟩
  · simp [getRegistrationStatus, ltOpt, h]
  · simp [getRegistrationStatus, ltOpt, not_lt.mpr h]
  · simp [daysToOnboard, subOpt]

/-- Witness for C1: evaluating the three branches at concrete inputs. -/
theorem c1_registration_status_precedence_witness :
    getRegistrationStatus (some 3) (some 5) = "Already Registered" ∧
    getRegistrationStatus (some 4) (some 0) = "Registered" ∧
    daysToOnboard (some 4) (some 0) = some 4 :=
  ⟨c1_registration_status_precedence.2.1 3 5 (by decide),
   (c1_registration_status_precedence.2.2.1 4 0 (by decide)).1,
   (c1_registration_status_precedence.2.2.1 4 0 (by decide)).2⟩

/-- One row of `NTB_Reg_Summary` as consumed by `process_data` in
`mob_adoption_dashboard.py` and `streamlit_app.py`: registration date,
account open date, the source `Registration_Remarks` column, and the
last login date. -/
structure MobRec where
  regDate : Option Int
  openDate : Option Int
  remark : String
  lastLogin : Option Int
deriving DecidableEq, Repr

/-- Step 1 of `process_data`: rows whose `Registration_Date` is strictly
before `Open_Date_` get `Registration_Remarks` overwritten with
`Already Registered`; other rows keep the source remark. -/
def mobRemark (r : MobRec) : String :=
  if ltOpt r.regDate r.openDate then "Already Registered" else r.remark

/-- The `valid_onboarding_mask` of `process_data` in
`mob_adoption_dashboard.py`: both dates non-null and registration not
before open.  The `streamlit_app.py` variant adds a remark conjunct
and is modelled separately below. -/
def validOnboarding (r : MobRec) : Bool :=
  r.regDate.isSome && r.openDate.isSome && geOpt r.regDate r.openDate

/-- The `Days_to_Onboard` column of `process_data` in
`mob_adoption_dashboard.py`: assigned only on `valid_onboarding_mask`
rows, null elsewhere. -/
def mobDaysToOnboard (r : MobRec) : Option Int :=
  if validOnboarding r then subOpt r.regDate r.openDate else none

/-- The `valid_onboarding_mask` of `process_data` in
`streamlit_app.py`: the processed `Registration_Remarks` is not
`Already Registered`, both dates are non-null, and registration is not
before open. -/
def streamlitValidOnboarding (r : MobRec) : Bool :=
  (mobRemark r != "Already Registered") && r.regDate.isSome &&
    r.openDate.isSome && geOpt r.regDate r.openDate

/-- The `Days_to_Onboard` column of `process_data` in
`streamlit_app.py`: assigned only on its `valid_onboarding_mask` rows,
null elsewhere. -/
def streamlitDaysToOnboard (r : MobRec) : Option Int :=
  if streamlitValidOnboarding r then subOpt r.regDate r.openDate else none

/-- `get_onboarding_bracket` from `process_data`: null maps to the
`Not Registered` sentinel, otherwise the day count is bucketed at the
5, 10, 30 and 180 day thresholds. -/
def getOnboardingBracket : Option Int → String
  | none => "Not Registered"
  | some d =>
    if d ≤ 5 then "5 days or less"
    else if d ≤ 10 then "6-10 days"
    else if d ≤ 30 then "11-30 days"
    else if d ≤ 180 then "1-6 months"
    else "More than 6 months"

/-- Step 5 of `process_data`: `Onboarding_Time_Bracket` defaults to
`Not Registered`, is set from `Days_to_Onboard` on valid rows, and is
finally overwritten with `Already Registered` wherever the processed
remark says so. -/
def mobOnboardingBracket (r : MobRec) : String :=
  let b :=
    if validOnboarding r then getOnboardingBracket (mobDaysToOnboard r)
    else "Not Registered"
  if mobRemark r = "Already Registered" then "Already Registered" else b

/-- The list of defined `Days_to_Onboard` values of a table; the pandas
mean over the column is the sum of this list divided by its length, so
a row contributes to the onboarding-latency average exactly when its
entry is non-null. -/
def mobOnboardValues (recs : List MobRec) : List Int :=
  recs.filterMap mobDaysToOnboard

/-- The list of defined `Days_to_Onboard` values under the
`streamlit_app.py` mask. -/
def streamlitOnboardValues (recs : List MobRec) : List Int :=
  recs.filterMap streamlitDaysToOnboard

lemma streamlitValid_iff (r : MobRec) :
    streamlitValidOnboarding r = true ↔
      mobRemark r ≠ "Already Registered" ∧ validOnboarding r = true := by
  simp [streamlitValidOnboarding, validOnboarding, Bool.and_eq_true,
    bne_iff_ne, and_assoc]

/-- Counterexample to claim C4: in `inet_dashboard_enhanced.py` and
`ytd_comparison_dashboard.py` the `days_to_onboard` column is computed
for every row, so the record with open date 2024-01-01 and registration
date 2023-12-20 is `Already Registered` yet has `days_to_onboard`
defined and equal to -12, not null. -/
theorem c4_counterexample :
    getRegistrationStatus (some (daysFromCivil 2023 12 20))
        (some (daysFromCivil 2024 1 1)) = "Already Registered" ∧
    daysToOnboard (some (daysFromCivil 2023 12 20))
        (some (daysFromCivil 2024 1 1)) = some (-12) := by
  decide

/-- Claim C4 as amended: in the inet and ytd dashboards
`days_to_onboard` is defined iff both timestamps are non-null (so an
AlreadyRegistered record carries the negative difference); in
`mob_adoption_dashboard.py` the guarded `Days_to_Onboard` is defined
iff both dates are non-null and registration is not before open; in
`streamlit_app.py` the mask additionally requires the processed remark
not be `Already Registered`; in both of the latter a record whose
registration precedes its open date has `Days_to_Onboard = null` and
contributes nothing to the onboarding-latency average. -/
theorem c4_days_to_onboard_definedness :
    (∀ reg op : Option Int,
      daysToOnboard reg op ≠ none ↔ reg ≠ none ∧ op ≠ none) ∧
    (∀ r : MobRec, mobDaysToOnboard r ≠ none ↔ validOnboarding r = true) ∧
    (∀ r : MobRec, streamlitDaysToOnboard r ≠ none ↔
      mobRemark r ≠ "Already Registered" ∧ validOnboarding r = true) ∧
    (∀ r : MobRec, ltOpt r.regDate r.openDate = true →
      mobDaysToOnboard r = none ∧ streamlitDaysToOnboard r = none) ∧
    (∀ (r : MobRec) (recs : List MobRec),
      ltOpt r.regDate r.openDate = true →
      mobOnboardValues (r :: recs) = mobOnboardValues recs ∧
      streamlitOnboardValues (r :: recs) = streamlitOnboardValues recs) := by
  have hmnull : ∀ r : MobRec, ltOpt r.regDate r.openDate = true →
      mobDaysToOnboard r = none := by
    intro r h
    rcases hr : r.regDate with _ | a <;> rcases ho : r.openDate with _ | b <;>
      simp [ltOpt, hr, ho] at h
    simp [mobDaysToOnboard, validOnboarding, geOpt, hr, ho, not_le.mpr h]
  have hsnull : ∀ r : MobRec, ltOpt r.regDate r.openDate = true →
      streamlitDaysToOnboard r = none := by
    intro r h
    have hrem : mobRemark r = "Already Registered" := by simp [mobRemark, h]
    simp [streamlitDaysToOnboard, streamlitValidOnboarding, hrem]
  refine ⟨?_, ?_, ?_, fun r h => ⟨hmnull r h, hsnull r h⟩, ?_⟩
  · intro reg op
    cases reg <;> cases op <;> simp [daysToOnboard, subOpt]
  · intro r
    cases h : validOnboarding r
    · simp [mobDaysToOnboard, h]
    · rcases hr : r.regDate with _ | a <;> rcases ho : r.openDate with _ | b
      all_goals simp [validOnboarding, hr, ho] at h
      all_goals simp [mobDaysToOnboard, validOnboarding, subOpt, hr, ho, h]
  · intro r
    rw [← streamlitValid_iff r]
    cases h : streamlitValidOnboarding r
    · simp [streamlitDaysToOnboard, h]
    · have h2 := h
      simp only [streamlitValidOnboarding, Bool.and_eq_true] at h2
      obtain ⟨⟨⟨hrm, hrs⟩, hos⟩, hge⟩ := h2
      rcases Option.isSome_iff_exists.mp hrs with ⟨a, ha⟩
      rcases Option.isSome_iff_exists.mp hos with ⟨b, hb⟩
      simp [streamlitDaysToOnboard, h, subOpt, ha, hb]
  · intro r recs h
    exact ⟨by simp [mobOnboardValues, List.filterMap_cons, hmnull r h],
      by simp [streamlitOnboardValues, List.filterMap_cons, hsnull r h]⟩

/-- Witness for C4: a record registered 12 days before opening has a
null guarded `Days_to_Onboard` in both files and drops out of both
mean-value lists. -/
theorem c4_days_to_onboard_definedness_witness :
    (mobDaysToOnboard ⟨some 0, some 12, "Registered", none⟩ = none ∧
      streamlitDaysToOnboard ⟨some 0, some 12, "Registered", none⟩ = none) ∧
    (mobOnboardValues [⟨some 0, some 12, "Registered", none⟩] =
        mobOnboardValues [] ∧
      streamlitOnboardValues [⟨some 0, some 12, "Registered", none⟩] =
        streamlitOnboardValues []) :=
  ⟨c4_days_to_onboard_definedness.2.2.2.1
      ⟨some 0, some 12, "Registered", none⟩ (by decide),
   c4_days_to_onboard_definedness.2.2.2.2
      ⟨some 0, some 12, "Registered", none⟩ [] (by decide)⟩

/-- Claim C8: for a record the derived status of which is Registered
(both dates non-null, registration not before open, and a source remark
consistent with that status), the final bracket is the pure threshold
function of the day difference; a record whose processed remark is
`Already Registered`, and a never-registered record with a consistent
remark, get the fixed sentinel brackets; and the threshold function on
a non-negative day count never returns a sentinel. -/
theorem c8_onboarding_bracket_cases :
    (∀ r : MobRec, r.regDate = none → r.remark ≠ "Already Registered" →
      mobOnboardingBracket r = "Not Registered") ∧
    (∀ r : MobRec, mobRemark r = "Already Registered" →
      mobOnboardingBracket r = "Already Registered") ∧
    (∀ (r : MobRec) (a b : Int), r.regDate = some a → r.openDate = some b →
      b ≤ a → r.remark ≠ "Already Registered" →
      mobOnboardingBracket r = getOnboardingBracket (some (a - b))) ∧
    (∀ d : Int, 0 ≤ d →
      getOnboardingBracket (some d) ≠ "Not Registered" ∧
      getOnboardingBracket (some d) ≠ "Already Registered" ∧
      (d ≤ 5 → getOnboardingBracket (some d) = "5 days or less") ∧
      (5 < d → d ≤ 10 → getOnboardingBracket (some d) = "6-10 days") ∧
      (10 < d → d ≤ 30 → getOnboardingBracket (some d) = "11-30 days") ∧
      (30 < d → d ≤ 180 → getOnboardingBracket (some d) = "1-6 months") ∧
      (180 < d → getOnboardingBracket (some d) = "More than 6 months")) := by
  refine ⟨?_, ?_, ?_, ?_⟩
  · intro r hreg hrem
    have hlt : ltOpt r.regDate r.openDate = false := by
      cases ho : r.openDate <;> simp [ltOpt, hreg, ho]
    have hv : validOnboarding r = false := by
      simp [validOnboarding, hreg]
    simp [mobOnboardingBracket, mobRemark, hlt, hv, hrem]
  · intro r hrem
    simp [mobOnboardingBracket, hrem]
  · intro r a b hreg hop hle hrem
    have hlt : ltOpt (some a) (some b) = false := by
      simp [ltOpt, not_lt.mpr hle]
    have hv : validOnboarding r = true := by
      simp [validOnboarding, geOpt, hreg, hop, hle]
    simp [mobOnboardingBracket, mobRemark, mobDaysToOnboard, subOpt,
      hlt, hv, hrem, hreg, hop]
  · intro d _
    by_cases h5 : d ≤ 5
    · simp [getOnboardingBracket, h5]
      all_goals omega
    · by_cases h10 : d ≤ 10
      · simp [getOnboardingBracket, h5, h10]
        all_goals omega
      · by_cases h30 : d ≤ 30
        · simp [getOnboardingBracket, h5, h10, h30]
          all_goals omega
        · by_cases h180 : d ≤ 180
          · simp [getOnboardingBracket, h5, h10, h30, h180]
          · simp [getOnboardingBracket, h5, h10, h30, h180]

/-- Witness for C8: a record opened on day 0, registered on day 3, with
a consistent source remark, is bracketed by the numeric thresholds. -/
theorem c8_onboarding_bracket_cases_witness :
    mobOnboardingBracket ⟨some 3, some 0, "Registered", none⟩ =
      getOnboardingBracket (some 3) ∧
    getOnboardingBracket (some 3) = "5 days or less" := by
  constructor
  · have h := c8_onboarding_bracket_cases.2.2.1
       ⟨some 3, some 0, "Registered", none⟩ 3 0 rfl rfl (by decide) (by decide)
    simpa using h
  · exact (c8_onboarding_bracket_cases.2.2.2 3 (by decide)).2.2.1 (by decide)

/-- The `days_since_last_trx` column: `pd.Timestamp.now()` minus the
last transaction date, null when the latter is null or unparseable. -/
def daysSinceLastTrx (nowD : Int) (lastTrx : Option Int) : Option Int :=
  subOpt (some nowD) lastTrx

/-- The `np.select` activity ladder of
`inet_dashboard_enhanced.preprocess_data`: the first true condition in
the 7/14/30/90/180/365-day ladder wins, and when every comparison is
false (in particular on a null day count) the default `Unknown` is
returned. -/
def inetActivityStatus (daysDelta : Option Int) : String :=
  if leOptN daysDelta 7 then "Weekly Active"
  else if leOptN daysDelta 14 then "Biweekly Active"
  else if leOptN daysDelta 30 then "Monthly Active"
  else if leOptN daysDelta 90 then "3 Months Active"
  else if leOptN daysDelta 180 then "6 Months Active"
  else if leOptN daysDelta 365 then "1 Year Active"
  else if gtOptN daysDelta 365 then "More than 1 Year"
  else "Unknown"

/-- The `np.select` activity ladder of
`ytd_comparison_dashboard.process_for_ytd` with its 7/30/90-day
thresholds and the same `Unknown` default. -/
def ytdActivityStatus (daysDelta : Option Int) : String :=
  if leOptN daysDelta 7 then "Weekly Active"
  else if leOptN daysDelta 30 then "Monthly Active"
  else if leOptN daysDelta 90 then "Quarterly Active"
  else if gtOptN daysDelta 90 then "Inactive"
  else "Unknown"

/-- The statuses counted as active users in
`inet_dashboard_enhanced.py` (`Activity_Status.isin(...)`). -/
def inetActiveStatuses : List String :=
  ["Weekly Active", "Biweekly Active", "Monthly Active"]

/-- The statuses counted as active in `ytd_comparison_dashboard.py`. -/
def ytdActiveStatuses : List String :=
  ["Weekly Active", "Monthly Active"]

/-- The active-user count of `inet_dashboard_enhanced.py` over a list
of last-transaction dates. -/
def inetActiveUsers (nowD : Int) (lastTrxs : List (Option Int)) : Nat :=
  (lastTrxs.filter (fun t =>
    inetActiveStatuses.contains
      (inetActivityStatus (daysSinceLastTrx nowD t)))).length

/-- The active-user count of `ytd_comparison_dashboard.py` over a list
of last-transaction dates. -/
def ytdActiveUsers (nowD : Int) (lastTrxs : List (Option Int)) : Nat :=
  (lastTrxs.filter (fun t =>
    ytdActiveStatuses.contains
      (ytdActivityStatus (daysSinceLastTrx nowD t)))).length

/-- Claim C9: a null (or coerced-to-null) last-transaction date makes
every threshold comparison false, so both ladders fall to the
`np.select` default `Unknown`, a status that is in neither active set;
consequently prepending such a record changes no active-user count. -/
theorem c9_null_last_trx_is_unknown :
    (∀ nowD : Int,
      inetActivityStatus (daysSinceLastTrx nowD none) = "Unknown" ∧
      ytdActivityStatus (daysSinceLastTrx nowD none) = "Unknown") ∧
    (inetActiveStatuses.contains "Unknown" = false ∧
      ytdActiveStatuses.contains "Unknown" = false) ∧
    (∀ (nowD : Int) (ts : List (Option Int)),
      inetActiveUsers nowD (none :: ts) = inetActiveUsers nowD ts ∧
      ytdActiveUsers nowD (none :: ts) = ytdActiveUsers nowD ts) := by
  refine ⟨fun nowD => ⟨rfl, rfl⟩, ⟨rfl, rfl⟩, fun nowD ts => ⟨?_, ?_⟩⟩
  · simp [inetActiveUsers, List.filter_cons, daysSinceLastTrx, subOpt,
      inetActivityStatus, leOptN, gtOptN, inetActiveStatuses]
  · simp [ytdActiveUsers, List.filter_cons, daysSinceLastTrx, subOpt,
      ytdActivityStatus, leOptN, gtOptN, ytdActiveStatuses]

/-- `get_login_bracket` from `process_data`: null login dates are
bracketed from the registration date; otherwise the login date is
compared against the 30/90/365-day cutoffs before now. -/
def getLoginBracket (r : MobRec) (nowD : Int) : String :=
  match r.lastLogin with
  | none => if r.regDate.isSome then "More than a Year" else "Not Registered"
  | some l =>
    if nowD - 30 ≤ l then "Last 30 Days"
    else if nowD - 90 ≤ l then "Last 90 Days"
    else if nowD - 365 ≤ l then "Previous Year"
    else "More than a Year"

/-- `get_login_frequency` from `process_data`, applied to the null-aware
days-since-last-login column. -/
def getLoginFrequency : Option Int → String
  | none => "No Login"
  | some d =>
    if d ≤ 7 then "Weekly"
    else if d ≤ 30 then "Monthly"
    else if d ≤ 90 then "Quarterly"
    else "Inactive"

/-- `Login_Frequency` after the update that relabels `No Login` rows
whose processed remark is `Not Registered`. -/
def mobLoginFrequency (r : MobRec) (nowD : Int) : String :=
  let f := getLoginFrequency (subOpt (some nowD) r.lastLogin)
  if f = "No Login" ∧ mobRemark r = "Not Registered" then "Not Registered"
  else f

/-- `registered_accounts` in `calculate_summary_metrics`: rows whose
processed `Registration_Remarks` is `Registered` or
`Already Registered`. -/
def registeredAccounts (recs : List MobRec) : Nat :=
  (recs.filter (fun r =>
    mobRemark r == "Registered" || mobRemark r == "Already Registered")).length

/-- `active_30_days`: rows whose `Login_Bracket` is `Last 30 Days`. -/
def active30Count (recs : List MobRec) (nowD : Int) : Nat :=
  (recs.filter (fun r => getLoginBracket r nowD == "Last 30 Days")).length

/-- `weekly_users`: rows whose `Login_Frequency` is `Weekly`. -/
def weeklyCount (recs : List MobRec) (nowD : Int) : Nat :=
  (recs.filter (fun r => mobLoginFrequency r nowD == "Weekly")).length

/-- `quick_onboarding`: rows bracketed in the two fastest buckets. -/
def quickOnboardingCount (recs : List MobRec) : Nat :=
  (recs.filter (fun r =>
    mobOnboardingBracket r == "5 days or less" ||
    mobOnboardingBracket r == "6-10 days")).length

/-- `active_rate` with its zero-denominator guard. -/
def mobActiveRate (recs : List MobRec) (nowD : Int) : ℚ :=
  if 0 < registeredAccounts recs then
    (active30Count recs nowD : ℚ) / registeredAccounts recs * 100
  else 0

/-- `quick_onboarding_rate` with its zero-denominator guard. -/
def mobQuickRate (recs : List MobRec) : ℚ :=
  if 0 < registeredAccounts recs then
    (quickOnboardingCount recs : ℚ) / registeredAccounts recs * 100
  else 0

/-- The `customer_journey` funnel stage counts of
`calculate_summary_metrics`: total accounts, registered accounts,
active in last 30 days, weekly active users. -/
def customerJourneyCounts (recs : List MobRec) (nowD : Int) : List Nat :=
  [recs.length, registeredAccounts recs, active30Count recs nowD,
   weeklyCount recs nowD]

/-- Claim C10: the Registered Accounts count is the funnel stage next
to Account Opening and the denominator of the active-user and
quick-onboarding rates, it counts exactly the rows whose processed
remark is `Registered` or `Already Registered`, and a row registered
before account opening is counted. -/
theorem c10_registered_accounts_funnel :
    (∀ (recs : List MobRec) (nowD : Int),
      (customerJourneyCounts recs nowD).getD 1 0 = registeredAccounts recs) ∧
    (∀ recs : List MobRec,
      registeredAccounts recs =
        (recs.filter (fun r => mobRemark r == "Registered")).length +
        (recs.filter (fun r => mobRemark r == "Already Registered")).length) ∧
    (∀ (recs : List MobRec) (nowD : Int), 0 < registeredAccounts recs →
      mobActiveRate recs nowD =
        (active30Count recs nowD : ℚ) / registeredAccounts recs * 100 ∧
      mobQuickRate recs =
        (quickOnboardingCount recs : ℚ) / registeredAccounts recs * 100) ∧
    (∀ (r : MobRec) (recs : List MobRec), ltOpt r.regDate r.openDate = true →
      registeredAccounts (r :: recs) = registeredAccounts recs + 1) := by
  refine ⟨fun recs nowD => rfl, ?_, ?_, ?_⟩
  · intro recs
    induction recs with
    | nil => rfl
    | cons r t ih =>
      by_cases h1 : mobRemark r = "Registered"
      · simp [registeredAccounts, List.filter_cons, h1] at ih ⊢
        omega
      · by_cases h2 : mobRemark r = "Already Registered"
        · simp [registeredAccounts, List.filter_cons, h1, h2] at ih ⊢
          omega
        · simp [registeredAccounts, List.filter_cons, h1, h2] at ih ⊢
          omega
  · intro recs nowD h
    exact ⟨by simp [mobActiveRate, h], by simp [mobQuickRate, h]⟩
  · intro r recs h
    have hrem : mobRemark r = "Already Registered" := by
      simp [mobRemark, h]
    simp [registeredAccounts, List.filter_cons, hrem]

/-- Witness for C10: one record registered before opening is counted as
registered, and the rates divide by that count. -/
theorem c10_registered_accounts_funnel_witness :
    registeredAccounts [⟨some 0, some 5, "Not Registered", none⟩] =
      registeredAccounts [] + 1 ∧
    mobActiveRate [⟨some 0, some 5, "Not Registered", none⟩] 0 =
      (active30Count [⟨some 0, some 5, "Not Registered", none⟩] 0 : ℚ) /
        registeredAccounts [⟨some 0, some 5, "Not Registered", none⟩] * 100 :=
  ⟨c10_registered_accounts_funnel.2.2.2
      ⟨some 0, some 5, "Not Registered", none⟩ [] (by decide),
   (c10_registered_accounts_funnel.2.2.1
      [⟨some 0, some 5, "Not Registered", none⟩] 0 (by decide)).1⟩

/-- The Adoption Rate metric of `inet_dashboard_enhanced.py`: when any
customer is eligible the value is `registered / eligible * 100`, and
when none is the dashboard shows the literal `0%`, modelled as the
value 0. -/
def adoptionRateValue (registered eligible : Nat) : ℚ :=
  if 0 < eligible then (registered : ℚ) / eligible * 100 else 0

/-- The Active User Rate metric of `inet_dashboard_enhanced.py`, with
the same `0%` fallback on a zero denominator. -/
def activeRateValue (active registered : Nat) : ℚ :=
  if 0 < registered then (active : ℚ) / registered * 100 else 0

/-- The growth expression of `ytd_comparison_dashboard.py`:
`((curr - prev) / prev * 100) if prev > 0 else 0`. -/
def growthRate (curr prev : Nat) : ℚ :=
  if 0 < prev then ((curr : ℚ) - prev) / prev * 100 else 0

/-- Modelled from the spec words, for comparison only: a rate with a
zero denominator is reported as null rather than as a number. -/
def growthRateSpecced (curr prev : Nat) : Option ℚ :=
  if 0 < prev then some (((curr : ℚ) - prev) / prev * 100) else none

/-- Counterexample to claim C3: on a zero denominator the growth,
adoption and active-user rates of the cited code evaluate to the value
0 — not to a null as the claim states, which the spec-worded variant
makes explicit. -/
theorem c3_counterexample :
    growthRate 7 0 = 0 ∧ adoptionRateValue 3 0 = 0 ∧
    activeRateValue 2 0 = 0 ∧ growthRateSpecced 7 0 = none ∧
    some (growthRate 7 0) ≠ growthRateSpecced 7 0 := by
  decide

/-- Claim C3 as amended: a zero denominator is guarded — no division is
performed — but the reported value is the fallback 0 (displayed `0%`),
not a null; with a positive denominator the exact quotient formula is
computed. -/
theorem c3_zero_denominator_yields_zero :
    (∀ c : Nat, growthRate c 0 = 0) ∧
    (∀ r : Nat, adoptionRateValue r 0 = 0) ∧
    (∀ a : Nat, activeRateValue a 0 = 0) ∧
    (∀ c p : Nat, 0 < p → growthRate c p = ((c : ℚ) - p) / p * 100) ∧
    (∀ r e : Nat, 0 < e → adoptionRateValue r e = (r : ℚ) / e * 100) ∧
    (∀ a r : Nat, 0 < r → activeRateValue a r = (a : ℚ) / r * 100) := by
  refine ⟨fun c => rfl, fun r => rfl, fun a => rfl, ?_, ?_, ?_⟩
  · intro c p h
    simp [growthRate, h]
  · intro r e h
    simp [adoptionRateValue, h]
  · intro a r h
    simp [activeRateValue, h]

/-- Witness for C3 as amended: the guarded formulas at concrete
positive denominators. -/
theorem c3_zero_denominator_yields_zero_witness :
    growthRate 3 2 = ((3 : ℚ) - 2) / 2 * 100 ∧
    adoptionRateValue 1 4 = (1 : ℚ) / 4 * 100 :=
  ⟨c3_zero_denominator_yields_zero.2.2.2.1 3 2 (by decide),
   c3_zero_denominator_yields_zero.2.2.2.2.1 1 4 (by decide)⟩

/-- One row as seen by the YTD filters: the `AC_OPEN_YEAR` and
`AC_OPEN_DOY` columns, both null when `AC_OPEN_DATE` failed to parse. -/
structure YtdRec where
  year : Option Int
  doy : Option Int
deriving DecidableEq, Repr

/-- Equality of a nullable column against a constant, false on null, as
in pandas. -/
def eqOpt : Option Int → Int → Bool
  | some a, k => a == k
  | none, _ => false

/-- The YTD mask of `ytd_comparison_dashboard.py` and
`ytd_preprocessor.py`: rows of the given year with day-of-year at most
the reference day. -/
def ytdFilter (rs : List YtdRec) (y R : Int) : List YtdRec :=
  rs.filter (fun r => eqOpt r.year y && leOptN r.doy R)

/-- The YTD row count `len(ytd_data[year])`. -/
def ytdCount (rs : List YtdRec) (y R : Int) : Nat :=
  (ytdFilter rs y R).length

/-- Claim C5: for a reference day `R`, the YTD view of a year holds
exactly the rows of that year with day-of-year in `1..R`, and the
chunked preprocessor totals (each chunk truncated at the same `R`)
agree with the whole-dataset count, so every compared year is truncated
at the same `R`. -/
theorem c5_ytd_same_day_truncation :
    (∀ (rs : List YtdRec) (y R : Int) (r : YtdRec),
      r ∈ ytdFilter rs y R ↔
        r ∈ rs ∧ r.year = some y ∧ ∃ d, r.doy = some d ∧ d ≤ R) ∧
    (∀ (chunks : List (List YtdRec)) (y R : Int),
      (chunks.map fun c => ytdCount c y R).sum =
        ytdCount chunks.flatten y R) := by
  constructor
  · intro rs y R r
    rw [ytdFilter, List.mem_filter]
    constructor
    · rintro ⟨hm, hb⟩
      rcases hy : r.year with _ | a <;> rcases hd : r.doy with _ | d <;>
        rw [hy, hd] at hb <;> simp [eqOpt, leOptN] at hb
      obtain ⟨h1, h2⟩ := hb
      subst h1
      exact ⟨hm, rfl, d, rfl, h2⟩
    · rintro ⟨hm, hy, d, hd, hle⟩
      refine ⟨hm, ?_⟩
      rw [hy, hd]
      simp [eqOpt, leOptN, hle]
  · intro chunks y R
    induction chunks with
    | nil => rfl
    | cons c t ih =>
      simp only [ytdCount, ytdFilter] at ih
      simp only [List.map_cons, List.sum_cons, List.flatten_cons, ytdCount,
        ytdFilter, List.filter_append, List.length_append, ih]

/-- `growth_data` in `ytd_comparison_dashboard.py`: the year-over-year
growth computed from two same-`R` YTD counts of the same dataset. -/
def ytdGrowthRate (rs : List YtdRec) (prevY currY R : Int) : ℚ :=
  growthRate (ytdCount rs currY R) (ytdCount rs prevY R)

/-- Claim C6: with a positive previous-year same-`R` YTD total the
growth rate is `(curr - prev) / prev * 100`; totals of 5000 and 6000
give +20. -/
theorem c6_ytd_growth_formula :
    (∀ (rs : List YtdRec) (prevY currY R : Int),
      0 < ytdCount rs prevY R →
      ytdGrowthRate rs prevY currY R =
        ((ytdCount rs currY R : ℚ) - ytdCount rs prevY R) /
          ytdCount rs prevY R * 100) ∧
    growthRate 6000 5000 = 20 := by
  constructor
  · intro rs prevY currY R h
    simp [ytdGrowthRate, growthRate, h]
  · norm_num [growthRate]

/-- Witness for C6: a dataset with one 2023 row and two 2024 rows in
the window yields a growth rate of 100 percent. -/
theorem c6_ytd_growth_formula_witness :
    ytdGrowthRate [⟨some 2023, some 1⟩, ⟨some 2024, some 1⟩,
      ⟨some 2024, some 2⟩] 2023 2024 5 = 100 := by
  have h := c6_ytd_growth_formula.1
    [⟨some 2023, some 1⟩, ⟨some 2024, some 1⟩, ⟨some 2024, some 2⟩]
    2023 2024 5 (by decide)
  rw [h]
  have h1 : ytdCount [⟨some 2023, some 1⟩, ⟨some 2024, some 1⟩,
      ⟨some 2024, some 2⟩] 2024 5 = 2 := rfl
  have h2 : ytdCount [⟨some 2023, some 1⟩, ⟨some 2024, some 1⟩,
      ⟨some 2024, some 2⟩] 2023 5 = 1 := rfl
  rw [h1, h2]
  norm_num

/-- One row of the Option C summary pipeline of
`large_file_notebook.py`, reduced to a group key (`REGION_DESC`) and
one numeric field (`AGE`). -/
structure SummaryRec where
  region : String
  age : ℚ
deriving DecidableEq, Repr

/-- The rows of one chunk falling in one group. -/
def groupRows (c : List SummaryRec) (g : String) : List SummaryRec :=
  c.filter (fun r => r.region == g)

/-- The per-chunk group row count (the `CUSTOMER_NO count` column). -/
def chunkCount (c : List SummaryRec) (g : String) : Nat :=
  (groupRows c g).length

/-- The per-chunk group sum of the numeric field. -/
def chunkSum (c : List SummaryRec) (g : String) : ℚ :=
  ((groupRows c g).map (fun r => r.age)).sum

/-- The per-chunk group mean (the `AGE mean` column of one chunk
summary). -/
def chunkMean (c : List SummaryRec) (g : String) : ℚ :=
  chunkSum c g / chunkCount c g

/-- The chunks holding at least one row of the group — exactly those
whose per-chunk `groupby` emits a summary row for the key, hence
exactly the rows the final `groupby` re-aggregates. -/
def contributingChunks (chunks : List (List SummaryRec)) (g : String) :
    List (List SummaryRec) :=
  chunks.filter (fun c => chunkCount c g != 0)

/-- The `total_customers` column of `final_summary`: per-chunk counts
merged with `sum`. -/
def mergedCount (chunks : List (List SummaryRec)) (g : String) : Nat :=
  ((contributingChunks chunks g).map (fun c => chunkCount c g)).sum

/-- The `total_balance`-style columns of `final_summary`: per-chunk
sums merged with `sum`. -/
def mergedSum (chunks : List (List SummaryRec)) (g : String) : ℚ :=
  ((contributingChunks chunks g).map (fun c => chunkSum c g)).sum

/-- The `avg_age` column of `final_summary`: the per-chunk `AGE mean`
values re-aggregated with `mean`, that is, an unweighted average of
chunk means. -/
def mergedAvgAge (chunks : List (List SummaryRec)) (g : String) : ℚ :=
  let ms := (contributingChunks chunks g).map (fun c => chunkMean c g)
  ms.sum / ms.length

/-- Counterexample to claim C2: the same four records split into chunks
of sizes 1 and 3 give a merged `avg_age` of 2, while the single-chunk
partition (the whole dataset at once) gives 3 — the pipeline keeps
per-chunk means and re-averages them, so the merged mean is not
partition-independent. -/
theorem c2_counterexample :
    mergedAvgAge [[⟨"R", 0⟩], [⟨"R", 4⟩, ⟨"R", 4⟩, ⟨"R", 4⟩]] "R" = 2 ∧
    mergedAvgAge [[⟨"R", 0⟩, ⟨"R", 4⟩, ⟨"R", 4⟩, ⟨"R", 4⟩]] "R" = 3 ∧
    ([[⟨"R", 0⟩], [⟨"R", 4⟩, ⟨"R", 4⟩, ⟨"R", 4⟩]] :
        List (List SummaryRec)).flatten =
      [⟨"R", 0⟩, ⟨"R", 4⟩, ⟨"R", 4⟩, ⟨"R", 4⟩] ∧
    chunkMean [⟨"R", 0⟩, ⟨"R", 4⟩, ⟨"R", 4⟩, ⟨"R", 4⟩] "R" = 3 ∧
    (2 : ℚ) ≠ 3 := by
  refine ⟨?_, ?_, by simp, ?_, by norm_num⟩ <;>
    norm_num [mergedAvgAge, contributingChunks, chunkMean, chunkSum,
      chunkCount, groupRows, List.filter_cons]

/-- Claim C2 as amended: the count and sum columns are kept as
per-chunk `(count, sum)` values and merged by addition, so for every
partition of the records into chunks the merged counts and sums equal
the whole-dataset ones; the mean columns however are re-averaged
per-chunk means, which are not partition-independent. -/
theorem c2_count_sum_merge_exact (chunks : List (List SummaryRec))
    (g : String) :
    mergedCount chunks g = chunkCount chunks.flatten g ∧
    mergedSum chunks g = chunkSum chunks.flatten g := by
  induction chunks with
  | nil => exact ⟨rfl, rfl⟩
  | cons c t ih =>
    have happc : chunkCount (c ++ t.flatten) g =
        chunkCount c g + chunkCount t.flatten g := by
      simp [chunkCount, groupRows, List.filter_append]
    have happs : chunkSum (c ++ t.flatten) g =
        chunkSum c g + chunkSum t.flatten g := by
      simp [chunkSum, groupRows, List.filter_append]
    by_cases h : chunkCount c g = 0
    · have hrows : groupRows c g = [] := List.length_eq_zero.mp h
      have hzero : chunkSum c g = 0 := by simp [chunkSum, hrows]
      have hc : contributingChunks (c :: t) g = contributingChunks t g := by
        simp [contributingChunks, List.filter_cons, h]
      have hmc : mergedCount (c :: t) g = mergedCount t g := by
        simp only [mergedCount, hc]
      have hms : mergedSum (c :: t) g = mergedSum t g := by
        simp only [mergedSum, hc]
      refine ⟨?_, ?_⟩
      · rw [hmc, ih.1, List.flatten_cons, happc, h]
        omega
      · rw [hms, ih.2, List.flatten_cons, happs, hzero]
        ring
    · have hc : contributingChunks (c :: t) g =
          c :: contributingChunks t g := by
        simp [contributingChunks, List.filter_cons, h]
      have hmc : mergedCount (c :: t) g =
          chunkCount c g + mergedCount t g := by
        simp only [mergedCount, hc, List.map_cons, List.sum_cons]
      have hms : mergedSum (c :: t) g = chunkSum c g + mergedSum t g := by
        simp only [mergedSum, hc, List.map_cons, List.sum_cons]
      exact ⟨by rw [hmc, ih.1, List.flatten_cons, happc],
        by rw [hms, ih.2, List.flatten_cons, happs]⟩

/-- Round half to even to an integer, the rounding used by numpy. -/
def rintEven (x : ℚ) : Int :=
  if x - Int.floor x < 1 / 2 then Int.floor x
  else if (1 : ℚ) / 2 < x - Int.floor x then Int.floor x + 1
  else if Int.floor x % 2 = 0 then Int.floor x else Int.floor x + 1

/-- `round(x, 1)` as numpy computes it: scale by ten, round to the
nearest integer, unscale. -/
def round1 (x : ℚ) : ℚ :=
  (rintEven (x * 10) : ℚ) / 10

/-- The loop of `calculate_summary_metrics` assigning
`Conversion_Rate` for stages `i = 1, ...`: each stage divides its count
by the previous count, times 100, rounded to one decimal. -/
def convAux : ℚ → List ℚ → List ℚ
  | _, [] => []
  | prev, c :: rest => round1 (c / prev * 100) :: convAux c rest

/-- The `Conversion_Rate` column: the default 100.0 for the first
stage, then the loop values. -/
def conversionRates : List ℚ → List ℚ
  | [] => []
  | c :: rest => 100 :: convAux c rest

/-- The `Drop_Off` column: `100 - Conversion_Rate`. -/
def dropOffs (counts : List ℚ) : List ℚ :=
  (conversionRates counts).map (fun x => 100 - x)

lemma convAux_length (rest : List ℚ) :
    ∀ prev : ℚ, (convAux prev rest).length = rest.length := by
  induction rest with
  | nil => intro prev; rfl
  | cons c r ih =>
    intro prev
    simp [convAux, ih c]

lemma conversionRates_length (counts : List ℚ) :
    (conversionRates counts).length = counts.length := by
  cases counts with
  | nil => rfl
  | cons c rest => simp [conversionRates, convAux_length]

lemma convAux_getD (rest : List ℚ) :
    ∀ (prev : ℚ) (i : Nat), i < rest.length →
      (convAux prev rest).getD i 0 =
        round1 (rest.getD i 0 / (prev :: rest).getD i 0 * 100) := by
  induction rest with
  | nil =>
    intro prev i h
    simp at h
  | cons c r ih =>
    intro prev i h
    cases i with
    | zero => rfl
    | succ j =>
      have hj : j < r.length := by simpa using h
      simpa [convAux] using ih c j hj

/-- Counterexample to claim C7: with stage counts `[3, 1]` the stored
conversion rate is the rounded 333/10, not the exact
`1 / 3 * 100` the claim asserts. -/
theorem c7_counterexample :
    conversionRates [3, 1] = [100, 333 / 10] ∧
    ((333 : ℚ) / 10) ≠ 1 / 3 * 100 := by
  constructor
  · norm_num [conversionRates, convAux, round1, rintEven]
  · norm_num

/-- Claim C7 as amended: `conversion_rate[0] = 100`; for `i ≥ 1` the
stored rate is `count[i] / count[i-1] * 100` rounded to one decimal;
`drop_off[i] = 100 - conversion_rate[i]`; on the concrete counts
`[1000, 600, 300, 90]` the quotients are exact one-decimal values and
the claimed `[100, 60, 50, 30]` and `[0, 40, 50, 70]` hold. -/
theorem c7_funnel_conversion_rounded :
    (∀ (c : ℚ) (rest : List ℚ),
      (conversionRates (c :: rest)).getD 0 0 = 100) ∧
    (∀ (counts : List ℚ) (i : Nat), i + 1 < counts.length →
      (conversionRates counts).getD (i + 1) 0 =
        round1 (counts.getD (i + 1) 0 / counts.getD i 0 * 100)) ∧
    (∀ (counts : List ℚ) (i : Nat), i < counts.length →
      (dropOffs counts).getD i 0 =
        100 - (conversionRates counts).getD i 0) ∧
    (conversionRates [1000, 600, 300, 90] = [100, 60, 50, 30] ∧
      dropOffs [1000, 600, 300, 90] = [0, 40, 50, 70]) := by
  refine ⟨fun c rest => rfl, ?_, ?_,
    by norm_num [conversionRates, convAux, dropOffs, round1, rintEven]⟩
  · intro counts i h
    cases counts with
    | nil => simp at h
    | cons c rest =>
      have hi : i < rest.length := by simpa using h
      have hmain := convAux_getD rest c i hi
      simpa [conversionRates] using hmain
  · intro counts i h
    have hlen : i < (conversionRates counts).length := by
      rw [conversionRates_length]
      exact h
    have hdlen : i < (dropOffs counts).length := by
      simpa [dropOffs, conversionRates_length] using h
    rw [dropOffs, List.getD_eq_getElem _ _ (by
        simpa [conversionRates_length] using h),
      List.getElem_map, List.getD_eq_getElem _ _ hlen]

/-- Witness for C7 as amended: the second stage of a two-stage funnel
carries the rounded quotient. -/
theorem c7_funnel_conversion_rounded_witness :
    (conversionRates [1000, 600]).getD 1 0 =
      round1 ((600 : ℚ) / 1000 * 100) := by
  have h := c7_funnel_conversion_rounded.2.1 [1000, 600] 0 (by decide)
  simpa using h

end NTB
